import Mathlib

/-
Shallow embedding of src/hyperliquid_bot/smart_restart.py.

Modelling conventions:
- Python datetimes are modelled by DT: an absolute instant in rational seconds,
  tagged naive or aware. datetime.now(timezone.utc) is aware; datetime.strptime
  with a format that has no %z directive yields a naive value, and subtracting a
  timedelta from a naive value keeps it naive. Subtracting a naive datetime from
  an aware one raises TypeError, which the embedding returns as
  Except.error PyErr.typeError.
- JSON values are JVal; a Python dict is an insertion-ordered association list,
  and assignment (dictSet) replaces the first matching key in place, else appends.
- The persisted bot_state.json is a StateFile: absent, corrupt (present but not
  parseable by json.load, so json.load raises and the enclosing except block of
  update_state swallows the error without writing), or a parsed JSON object.
- The input to get_last_log_time is the stripped last line of the log file
  (the stdout of tail -1, stripped) as a List Char, or none when the log file
  does not exist or reading it raised (the code swallows that identically).
- restart_bot records its side effects as a trace of Effect values in the order
  the code performs them: os.chdir, pkill, the run.sh existence check, each
  BOT_DIR.glob(pattern) call, and the Popen spawn.
-/

/-- JSON values as produced by json.load; objects keep insertion order. -/
inductive JVal where
  | null
  | bool (b : Bool)
  | num (q : ℚ)
  | str (s : String)
  | arr (elems : List JVal)
  | obj (fields : List (String × JVal))

/-- Python dict lookup state.get(k), on the association-list model of a dict. -/
def dictGet : List (String × JVal) → String → Option JVal
  | [], _ => none
  | (k, v) :: rest, q => if k = q then some v else dictGet rest q

/-- Python dict assignment state[k] = v: replace the first matching key in
place, keeping its position; append when the key is new. -/
def dictSet : List (String × JVal) → String → JVal → List (String × JVal)
  | [], k, v => [(k, v)]
  | (k', v') :: rest, k, v =>
    if k' = k then (k, v) :: rest else (k', v') :: dictSet rest k v

/-- The on-disk bot_state.json as update_state finds it: missing, present but
not parseable (json.load raises), or a parsed JSON object. -/
inductive StateFile where
  | absent
  | corrupt
  | record (fields : List (String × JVal))

/-- The dict that update_state writes, built from the loaded dict by the three
assignments of lines 66-70 of smart_restart.py, in source order:
state["status"] = status, state["last_check"] = checkIso, and, only when
message is non-empty (Python truthiness of a string), state["last_message"] =
message. -/
def writtenDict (status message checkIso : String)
    (d : List (String × JVal)) : List (String × JVal) :=
  if message = "" then
    dictSet (dictSet d "status" (JVal.str status)) "last_check" (JVal.str checkIso)
  else
    dictSet (dictSet (dictSet d "status" (JVal.str status))
      "last_check" (JVal.str checkIso)) "last_message" (JVal.str message)

/-- update_state (lines 59-75). checkIso stands for
datetime.now(timezone.utc).isoformat() taken inside update_state. On an absent
file the initial state = empty dict is used; on a corrupt file json.load raises
and the enclosing try/except catches the error after only printing it, so no
write happens and the file is left unchanged. (A failure of the final write is
likewise only printed; files whose JSON parses to a non-object are outside this
model.) -/
def update_state (status message checkIso : String) : StateFile → StateFile
  | StateFile.absent => StateFile.record (writtenDict status message checkIso [])
  | StateFile.corrupt => StateFile.corrupt
  | StateFile.record d => StateFile.record (writtenDict status message checkIso d)

/-- The status field of the persisted record, when a record is present. -/
def writtenStatus : StateFile → Option JVal
  | StateFile.record d => dictGet d "status"
  | _ => none

/-- A Python datetime: an absolute instant measured in (exact, rational)
seconds, tagged by whether the object carries tzinfo. total_seconds() of the
difference is modelled exactly. -/
inductive DT where
  | naive (secs : ℚ)
  | aware (secs : ℚ)

/-- The Python exceptions this program can raise uncaught. -/
inductive PyErr where
  | typeError

/-- Python datetime subtraction a - b: defined for two aware or two naive
operands, a TypeError when the operands are mixed. -/
def dtSub : DT → DT → Except PyErr ℚ
  | DT.aware a, DT.aware b => Except.ok (a - b)
  | DT.naive a, DT.naive b => Except.ok (a - b)
  | DT.aware _, DT.naive _ => Except.error PyErr.typeError
  | DT.naive _, DT.aware _ => Except.error PyErr.typeError

/-- MAX_IDLE_MINUTES = 15 (line 21). -/
def MAX_IDLE_MINUTES : ℚ := 15

/-- Model of the Python float format {x:.1f}: the value rounded to one decimal
place, rendered with exactly one digit after the point. (Python rounds the
decimal expansion of the binary float; on the values at stake this is rounding
to the nearest tenth, modelled here with half rounded up.) -/
def fmt1 (q : ℚ) : String :=
  let n : ℤ := ⌊q * 10 + 1 / 2⌋
  (if n < 0 then "-" else "") ++ toString (n.natAbs / 10) ++ "." ++ toString (n.natAbs % 10)

/-- The health decision of main (lines 135-149): needs_restart and reason are
initialised to (false, ""), then the if/elif/else chain runs. In the elif
branch the code computes (now - last_log).total_seconds() / 60, which raises
TypeError when now is aware and last_log naive. -/
def healthDecision (process_running : Bool) (last_log : Option DT) (now : DT) :
    Except PyErr (Bool × String) :=
  if !process_running then
    Except.ok (true, "Process not running")
  else
    match last_log with
    | some t =>
      match dtSub now t with
      | Except.error e => Except.error e
      | Except.ok secs =>
        let idle_minutes := secs / 60
        if idle_minutes > MAX_IDLE_MINUTES then
          Except.ok (true, "No logs for " ++ fmt1 idle_minutes ++ " minutes")
        else
          Except.ok (false, "")
    | none => Except.ok (true, "Cannot determine last log time")

/-- Decimal digit test, as matched by the regex class \d (ASCII range here). -/
def isDigit (c : Char) : Bool := decide ('0' ≤ c ∧ c ≤ '9')

/-- Numeric value of a digit character. -/
def dVal (c : Char) : Nat := c.toNat - '0'.toNat

/-- Whitespace as matched by \s (ASCII subset; strptime turns every literal
whitespace of the format into the regex \s+). -/
def isSpaceCh (c : Char) : Bool :=
  decide (c = ' ' ∨ c = Char.ofNat 9 ∨ c = Char.ofNat 10 ∨ c = Char.ofNat 11 ∨
    c = Char.ofNat 12 ∨ c = Char.ofNat 13)

/-- strptime %Y: exactly four digits. -/
def parseYear : List Char → Option (Nat × List Char)
  | a :: b :: c :: d :: rest =>
    if isDigit a && isDigit b && isDigit c && isDigit d then
      some (1000 * dVal a + 100 * dVal b + 10 * dVal c + dVal d, rest)
    else none
  | _ => none

/-- strptime %m, compiled by CPython to the regex 1[0-2]|0[1-9]|[1-9],
alternatives tried left to right. -/
def parseMonth : List Char → Option (Nat × List Char)
  | '1' :: c :: rest =>
    if '0' ≤ c ∧ c ≤ '2' then some (10 + dVal c, rest) else some (1, c :: rest)
  | '0' :: c :: rest =>
    if '1' ≤ c ∧ c ≤ '9' then some (dVal c, rest) else none
  | c :: rest =>
    if '1' ≤ c ∧ c ≤ '9' then some (dVal c, rest) else none
  | [] => none

/-- strptime %d: regex 3[01]|[12]\d|0[1-9]|[1-9]. -/
def parseDay : List Char → Option (Nat × List Char)
  | '3' :: c :: rest =>
    if c = '0' ∨ c = '1' then some (30 + dVal c, rest) else some (3, c :: rest)
  | '1' :: c :: rest =>
    if isDigit c then some (10 + dVal c, rest) else some (1, c :: rest)
  | '2' :: c :: rest =>
    if isDigit c then some (20 + dVal c, rest) else some (2, c :: rest)
  | '0' :: c :: rest =>
    if '1' ≤ c ∧ c ≤ '9' then some (dVal c, rest) else none
  | c :: rest =>
    if '1' ≤ c ∧ c ≤ '9' then some (dVal c, rest) else none
  | [] => none

/-- strptime %H: regex 2[0-3]|[0-1]\d|\d. -/
def parseHour : List Char → Option (Nat × List Char)
  | '2' :: c :: rest =>
    if '0' ≤ c ∧ c ≤ '3' then some (20 + dVal c, rest) else some (2, c :: rest)
  | '0' :: c :: rest =>
    if isDigit c then some (dVal c, rest) else some (0, c :: rest)
  | '1' :: c :: rest =>
    if isDigit c then some (10 + dVal c, rest) else some (1, c :: rest)
  | c :: rest =>
    if isDigit c then some (dVal c, rest) else none
  | [] => none

/-- strptime %M: regex [0-5]\d|\d. -/
def parseMinute : List Char → Option (Nat × List Char)
  | c1 :: c2 :: rest =>
    if ('0' ≤ c1 ∧ c1 ≤ '5') ∧ isDigit c2 = true then
      some (10 * dVal c1 + dVal c2, rest)
    else if isDigit c1 then some (dVal c1, c2 :: rest)
    else none
  | [c1] => if isDigit c1 then some (dVal c1, []) else none
  | [] => none

/-- strptime %S: regex 6[0-1]|[0-5]\d|\d (60 and 61 pass the regex but are
rejected later by the datetime constructor). -/
def parseSecond : List Char → Option (Nat × List Char)
  | '6' :: c :: rest =>
    if c = '0' ∨ c = '1' then some (60 + dVal c, rest) else some (6, c :: rest)
  | c1 :: c2 :: rest =>
    if ('0' ≤ c1 ∧ c1 ≤ '5') ∧ isDigit c2 = true then
      some (10 * dVal c1 + dVal c2, rest)
    else if isDigit c1 then some (dVal c1, c2 :: rest)
    else none
  | [c1] => if isDigit c1 then some (dVal c1, []) else none
  | [] => none

/-- Consume one literal character. -/
def expectChar (c : Char) : List Char → Option (List Char)
  | x :: rest => if x = c then some rest else none
  | [] => none

/-- Consume a literal character sequence. -/
def expectLit : List Char → List Char → Option (List Char)
  | [], l => some l
  | c :: cs, l =>
    match expectChar c l with
    | some r => expectLit cs r
    | none => none

/-- Consume the regex \s+ (greedy; the following literal is never whitespace
in this format, so maximal munch is exact). -/
def parseWs : List Char → Option (List Char)
  | c :: rest => if isSpaceCh c then some (rest.dropWhile isSpaceCh) else none
  | [] => none

/-- The regex match of strptime for the fixed format
"%Y-%m-%d %H:%M:%S (UTC+8)" (line 37): the whole string must be consumed. -/
def parseFormat (l : List Char) : Option (Nat × Nat × Nat × Nat × Nat × Nat) := do
  let (y, r1) ← parseYear l
  let r2 ← expectChar '-' r1
  let (m, r3) ← parseMonth r2
  let r4 ← expectChar '-' r3
  let (d, r5) ← parseDay r4
  let r6 ← parseWs r5
  let (h, r7) ← parseHour r6
  let r8 ← expectChar ':' r7
  let (mi, r9) ← parseMinute r8
  let r10 ← expectChar ':' r9
  let (s, r11) ← parseSecond r10
  let r12 ← parseWs r11
  let r13 ← expectLit ['(', 'U', 'T', 'C', '+', '8', ')'] r12
  if r13.isEmpty then some (y, m, d, h, mi, s) else none

/-- Gregorian leap year, as in the proleptic calendar datetime uses. -/
def isLeap (y : Nat) : Bool := decide ((y % 4 = 0 ∧ y % 100 ≠ 0) ∨ y % 400 = 0)

/-- Days in a month of the proleptic Gregorian calendar. -/
def daysInMonth (y m : Nat) : Nat :=
  if m = 2 then (if isLeap y then 29 else 28)
  else if m = 4 ∨ m = 6 ∨ m = 9 ∨ m = 11 then 30
  else 31

/-- Days from 1970-01-01 to the given civil date (Hinnant's days_from_civil;
Lean's Int division truncates like the original). -/
def daysFromCivil (y : ℤ) (m d : Nat) : ℤ :=
  let y' := if m ≤ 2 then y - 1 else y
  let era := (if 0 ≤ y' then y' else y' - 399) / 400
  let yoe := y' - era * 400
  let mp := ((m : ℤ) + 9) % 12
  let doy := (153 * mp + 2) / 5 + (d : ℤ) - 1
  let doe := yoe * 365 + yoe / 4 - yoe / 100 + doy
  era * 146097 + doe - 719468

/-- datetime.strptime(time_str, "%Y-%m-%d %H:%M:%S (UTC+8)"): the regex match
followed by the datetime constructor's validation (year at least 1, day valid
for the month, seconds below 60). The result is the naive instant, measured in
seconds from the epoch of the same (local) scale. -/
def strptimeNaive (l : List Char) : Option ℤ :=
  match parseFormat l with
  | none => none
  | some (y, m, d, h, mi, s) =>
    if 1 ≤ y ∧ d ≤ daysInMonth y m ∧ s ≤ 59 then
      some (daysFromCivil (y : ℤ) m d * 86400 + (h : ℤ) * 3600 + (mi : ℤ) * 60 + (s : ℤ))
    else none

/-- The delimiter " - " of a log line. -/
def sepDelim : List Char := [' ', '-', ' ']

/-- Does the pattern (first argument) start the given list? -/
def startsWithL : List Char → List Char → Bool
  | [], _ => true
  | _ :: _, [] => false
  | p :: ps, c :: cs => p == c && startsWithL ps cs

/-- The prefix of the line before the first occurrence of the (non-empty)
separator, or none when the separator does not occur. This is exactly
last_line.split(" - ")[0] guarded by the Python test " - " in last_line. -/
def splitHead (sep : List Char) : List Char → Option (List Char)
  | [] => none
  | c :: rest =>
    if startsWithL sep (c :: rest) then some []
    else
      match splitHead sep rest with
      | some pre => some (c :: pre)
      | none => none

/-- get_last_log_time (lines 23-46). The argument is the stripped last line of
the log (none when the file does not exist or reading raised, both of which the
code turns into None). A parsed value is dt - timedelta(hours=8): still naive,
28800 seconds earlier. Every failure path of the code returns None: the
function is total and never raises (bare except around strptime, outer except
around the file access). -/
def get_last_log_time (log : Option (List Char)) : Option DT :=
  match log with
  | none => none
  | some line =>
    if line.isEmpty then none
    else
      match splitHead sepDelim line with
      | none => none
      | some time_str =>
        match strptimeNaive time_str with
        | some secs => some (DT.naive ((secs : ℚ) - 28800))
        | none => none

/-- The observable side effects of restart_bot, in program order. -/
inductive Effect where
  | chdirE
  | kill
  | checkRun
  | glob (pattern : String)
  | spawnRun
  | spawnScript (script : String)

/-- The environment restart_bot runs against: whether os.chdir(BOT_DIR)
succeeds, whether run.sh exists, what each BOT_DIR.glob(pattern) returns, and
whether the Popen spawn succeeds (spawnErr/chdirErr are the str(e) of the
raised exception otherwise). -/
structure REnv where
  chdirOk : Bool
  runScriptExists : Bool
  glob : String → List String
  spawnOk : Bool
  chdirErr : String
  spawnErr : String

/-- The ordered candidate patterns of lines 99 of smart_restart.py. -/
def patterns : List String := ["trading_bot.py", "bot.py", "main.py", "hyperliquid*.py"]

/-- The for-loop over patterns (lines 98-103): glob each pattern in order,
stop at the first non-empty match list and take its first element. Returns the
trace of glob calls made and the script found. -/
def findScript (g : String → List String) : List String → List Effect × Option String
  | [] => ([], none)
  | p :: rest =>
    match g p with
    | [] =>
      let r := findScript g rest
      (Effect.glob p :: r.1, r.2)
    | m :: _ => ([Effect.glob p], some m)

/-- The launch part of restart_bot after the kill (lines 91-113): run.sh if it
exists, else the first candidate script, else (False, "No bot script found").
A spawn failure raises and is caught by restart_bot's except as
(False, "Error restarting bot: " ++ e). -/
def launchAttempt (env : REnv) : List Effect × (Bool × String) :=
  if env.runScriptExists then
    ([Effect.checkRun, Effect.spawnRun],
     if env.spawnOk then (true, "Bot restarted successfully")
     else (false, "Error restarting bot: " ++ env.spawnErr))
  else
    match (findScript env.glob patterns).2 with
    | some script =>
      (Effect.checkRun :: ((findScript env.glob patterns).1 ++ [Effect.spawnScript script]),
       if env.spawnOk then (true, "Bot restarted successfully")
       else (false, "Error restarting bot: " ++ env.spawnErr))
    | none =>
      (Effect.checkRun :: (findScript env.glob patterns).1,
       (false, "No bot script found"))

/-- restart_bot (lines 77-116): chdir (an exception there is caught by the
outer except, before any kill), then pkill of the probe pattern (result
ignored), then the launch fallback chain. Returns the effect trace and the
(success, message) pair. -/
def restart_bot (env : REnv) : List Effect × (Bool × String) :=
  if env.chdirOk then
    (Effect.chdirE :: Effect.kill :: (launchAttempt env).1, (launchAttempt env).2)
  else
    ([Effect.chdirE], (false, "Error restarting bot: " ++ env.chdirErr))

/-- True when no launch-target lookup (the run.sh existence check or a glob)
occurs before the kill in the trace. -/
def killBeforeLookups : List Effect → Bool
  | [] => true
  | Effect.kill :: _ => true
  | Effect.checkRun :: _ => false
  | Effect.glob _ :: _ => false
  | Effect.chdirE :: rest => killBeforeLookups rest
  | Effect.spawnRun :: rest => killBeforeLookups rest
  | Effect.spawnScript _ :: rest => killBeforeLookups rest

/-- The status_info dict main builds (lines 126-171). -/
structure StatusInfo where
  timestamp : String
  process_running : Bool
  last_log_time : Option DT
  action_taken : Option String
  restart_success : Option Bool
  restart_message : Option String
  status : Option String

/-- sys.exit(0 if result.get("restart_success", True) else 1) (line 176). -/
def exitCode (info : StatusInfo) : Nat :=
  match info.restart_success with
  | some b => if b then 0 else 1
  | none => 0

/-- main (lines 121-172): now = datetime.now(timezone.utc) is aware; last_log
is the probe result of get_last_log_time (naive when present). The decision
chain may raise TypeError, which propagates out of main. On the no-restart
branch the code recomputes now - last_log for idle_str (line 166) and then
writes status "Stopped - Script Missing". nowIso stands for now.isoformat();
checkIso for the clock reading update_state takes itself. -/
def mainFn (process_running : Bool) (last_log : Option DT) (nowSecs : ℚ)
    (nowIso : String) (env : REnv) (checkIso : String) (sf : StateFile) :
    Except PyErr (StatusInfo × StateFile) :=
  let now := DT.aware nowSecs
  match healthDecision process_running last_log now with
  | Except.error e => Except.error e
  | Except.ok (needs_restart, reason) =>
    if needs_restart then
      let r := restart_bot env
      let success := r.2.1
      let message := r.2.2
      let info := StatusInfo.mk nowIso process_running last_log
        (some "restart") (some success) (some message) none
      if success then
        Except.ok (info,
          update_state "Running" ("Restarted at " ++ nowIso ++ ": " ++ reason) checkIso sf)
      else
        Except.ok (info, update_state "Error" message checkIso sf)
    else
      let info := StatusInfo.mk nowIso process_running last_log
        (some "none") none none (some "healthy")
      match last_log with
      | some t =>
        match dtSub now t with
        | Except.error e => Except.error e
        | Except.ok _ =>
          Except.ok (info,
            update_state "Stopped - Script Missing"
              ("Bot script not found at " ++ nowIso) checkIso sf)
      | none =>
        Except.ok (info,
          update_state "Stopped - Script Missing"
            ("Bot script not found at " ++ nowIso) checkIso sf)

/-- The exit status of the whole script (lines 175-177): an uncaught exception
makes the interpreter exit with status 1; otherwise sys.exit picks 0 or 1 from
restart_success (defaulting to True when no restart was attempted). -/
def scriptExit (r : Except PyErr (StatusInfo × StateFile)) : Nat :=
  match r with
  | Except.error _ => 1
  | Except.ok p => exitCode p.1

/-- Setting one key leaves lookups of a different key unchanged. -/
theorem dictGet_dictSet_ne (d : List (String × JVal)) (k q : String) (v : JVal)
    (h : k ≠ q) : dictGet (dictSet d k v) q = dictGet d q := by
  induction d with
  | nil => simp [dictSet, dictGet, h]
  | cons a rest ih =>
    rcases a with ⟨ak, av⟩
    by_cases hak : ak = k
    · subst hak
      simp [dictSet, dictGet, h]
    · by_cases haq : ak = q <;> simp [dictSet, dictGet, hak, haq, ih, Ne.symm h]

/-- When every pattern globs to nothing, the candidate search finds nothing. -/
theorem findScript_none (g : String → List String) :
    ∀ ps : List String, (∀ p, p ∈ ps → g p = []) → (findScript g ps).2 = none := by
  intro ps
  induction ps with
  | nil => intro _; rfl
  | cons p rest ih =>
    intro h
    have hp : g p = [] := h p (List.mem_cons_self p rest)
    simp only [findScript, hp]
    exact ih (fun q hq => h q (List.mem_cons_of_mem p hq))

/-- C2: whenever processRunning is false the verdict is unhealthy with the
process-not-running reason (the code's string is "Process not running"),
whatever lastActivity is — the check is the first branch of the chain, so it
takes priority over every other rule, including the branch that would raise
TypeError on a present lastActivity. -/
theorem processNotRunningPriority (last_log : Option DT) (now : DT) :
    healthDecision false last_log now = Except.ok (true, "Process not running") := rfl

/-- C3: with the process running and lastActivity absent, the verdict is
unhealthy with the cannot-determine reason (the code's string is
"Cannot determine last log time"). -/
theorem cannotDetermineAbsent (now : DT) :
    healthDecision true none now = Except.ok (true, "Cannot determine last log time") := rfl

/-- C1: with the process running and lastActivity present the code does NOT
produce the claimed verdict: last_log is always naive (get_last_log_time parses
without %z) while now is aware, so the subtraction now - last_log of line 141
raises TypeError for every such invocation, which propagates out of main; the
idle comparison and its one-decimal reason are never reached. -/
theorem idleCheckRaisesTypeError (t n : ℚ) (nowIso checkIso : String)
    (env : REnv) (sf : StateFile) :
    healthDecision true (some (DT.naive t)) (DT.aware n) = Except.error PyErr.typeError ∧
    mainFn true (some (DT.naive t)) n nowIso env checkIso sf = Except.error PyErr.typeError :=
  ⟨rfl, rfl⟩

/-- C4: at a would-be-healthy invocation (process running, activity 5 minutes
old) the claimed exit code 0 does not happen: the TypeError of the idle check
escapes main and the interpreter exits with status 1 although no restart was
attempted, contradicting both directions of the claimed equivalence. -/
theorem exitCodeOnWouldBeHealthy :
    mainFn true (some (DT.naive 0)) 300 "2026-02-13T14:00:00+00:00"
      (REnv.mk true false (fun _ => []) true "" "") "2026-02-13T14:05:00+00:00"
      StateFile.absent = Except.error PyErr.typeError ∧
    scriptExit (mainFn true (some (DT.naive 0)) 300 "2026-02-13T14:00:00+00:00"
      (REnv.mk true false (fun _ => []) true "" "") "2026-02-13T14:05:00+00:00"
      StateFile.absent) = 1 :=
  ⟨rfl, rfl⟩

/-- C5: recordState on a previously persisted record merges additively: every
field other than status, last_check and last_message keeps its value in the
written output, and with an empty message the existing last_message (or its
absence) is preserved. The first conjunct ties the written dict to
update_state on the parsed record. -/
theorem recordStatePreservesFields (d : List (String × JVal))
    (status message checkIso k : String)
    (h1 : k ≠ "status") (h2 : k ≠ "last_check") (h3 : k ≠ "last_message") :
    update_state status message checkIso (StateFile.record d) =
      StateFile.record (writtenDict status message checkIso d) ∧
    dictGet (writtenDict status message checkIso d) k = dictGet d k ∧
    (message = "" →
      dictGet (writtenDict status message checkIso d) "last_message" =
        dictGet d "last_message") := by
  refine ⟨rfl, ?_, ?_⟩
  · by_cases hm : message = ""
    · simp only [writtenDict, if_pos hm]
      rw [dictGet_dictSet_ne _ _ _ _ (Ne.symm h2), dictGet_dictSet_ne _ _ _ _ (Ne.symm h1)]
    · simp only [writtenDict, if_neg hm]
      rw [dictGet_dictSet_ne _ _ _ _ (Ne.symm h3), dictGet_dictSet_ne _ _ _ _ (Ne.symm h2),
        dictGet_dictSet_ne _ _ _ _ (Ne.symm h1)]
  · intro hm
    simp only [writtenDict, if_pos hm]
    rw [dictGet_dictSet_ne _ _ _ _ (by decide : "last_check" ≠ "last_message"),
      dictGet_dictSet_ne _ _ _ _ (by decide : "status" ≠ "last_message")]

/-- Witness for C5: a record holding the unrecognized field foo = "bar" still
holds it after recordState("Running", ""), and last_message stays absent. -/
theorem recordStatePreservesFieldsWitness :
    dictGet (writtenDict "Running" "" "2026-02-13T14:05:00+00:00"
      [("foo", JVal.str "bar")]) "foo" = some (JVal.str "bar") ∧
    dictGet (writtenDict "Running" "" "2026-02-13T14:05:00+00:00"
      [("foo", JVal.str "bar")]) "last_message" = none := by
  have h := recordStatePreservesFields [("foo", JVal.str "bar")] "Running" ""
    "2026-02-13T14:05:00+00:00" "foo" (by decide) (by decide) (by decide)
  exact ⟨h.2.1.trans rfl, (h.2.2 rfl).trans rfl⟩

/-- Counterexample to C6: on a corrupt (unparseable) status file,
recordState("Running", "") does not write back any record at all — the file is
left corrupt and no status field exists in the output — contradicting the
claim that the existing record is treated as empty and the new status and
last_check are still written. -/
theorem recordStateCorruptCounterexample :
    update_state "Running" "" "2026-02-13T14:05:00+00:00" StateFile.corrupt =
      StateFile.corrupt ∧
    writtenStatus (update_state "Running" "" "2026-02-13T14:05:00+00:00"
      StateFile.corrupt) = none :=
  ⟨rfl, rfl⟩

/-- C6 as amended: on a corrupt status file the recorder does not propagate the
parse error (json.load's exception is caught and only printed), but it skips
the write entirely, leaving the file unchanged; only an absent file is treated
as an empty record and written with the new status and last_check. -/
theorem recordStateCorruptBehavior (status message checkIso : String) :
    update_state status message checkIso StateFile.corrupt = StateFile.corrupt ∧
    update_state status message checkIso StateFile.absent =
      StateFile.record (writtenDict status message checkIso []) :=
  ⟨rfl, rfl⟩

/-- C7: when chdir succeeds, run.sh does not exist and no candidate pattern
matches any file, restart_bot fails with the no-launch-target message (the
code's string is "No bot script found"), whatever the spawn environment. -/
theorem noLaunchTargetFailure (g : String → List String) (sp : Bool) (ce se : String)
    (h : ∀ p, p ∈ patterns → g p = []) :
    (restart_bot (REnv.mk true false g sp ce se)).2 = (false, "No bot script found") := by
  have h2 : (findScript g patterns).2 = none := findScript_none g patterns h
  simp [restart_bot, launchAttempt, h2]

/-- Witness for C7: the concrete environment where every glob is empty. -/
theorem noLaunchTargetWitness :
    (restart_bot (REnv.mk true false (fun _ => []) true "" "")).2 =
      (false, "No bot script found") :=
  noLaunchTargetFailure (fun _ => []) true "" "" (fun _ _ => rfl)

/-- C8: the enum claim fails on the code. The no-restart branch of main writes
status "Stopped - Script Missing", which is none of Running, Error, Stopped;
moreover that branch is unreachable: every invocation that would reach it
(process running, recent parseable activity) raises TypeError first and writes
nothing, as the first conjunct shows at such an input. -/
theorem healthyBranchStatusOutsideEnum :
    mainFn true (some (DT.naive 0)) 300 "2026-02-13T14:00:00+00:00"
      (REnv.mk true false (fun _ => []) true "" "") "2026-02-13T14:05:01+00:00"
      (StateFile.record []) = Except.error PyErr.typeError ∧
    writtenStatus (update_state "Stopped - Script Missing"
      ("Bot script not found at " ++ "2026-02-13T14:00:00+00:00")
      "2026-02-13T14:05:01+00:00" (StateFile.record [])) =
      some (JVal.str "Stopped - Script Missing") ∧
    ("Stopped - Script Missing" ≠ "Running" ∧ "Stopped - Script Missing" ≠ "Error" ∧
      "Stopped - Script Missing" ≠ "Stopped") :=
  ⟨rfl, rfl, by decide, by decide, by decide⟩

/-- C9: the activity probe is a total function of the log state and yields
absent (none) on every failure path the claim enumerates: missing file, empty
last line, last line without the " - " delimiter, and a timestamp prefix the
fixed format does not parse. -/
theorem activityProbeFailurePaths :
    get_last_log_time none = none ∧
    get_last_log_time (some []) = none ∧
    (∀ line : List Char, splitHead sepDelim line = none →
      get_last_log_time (some line) = none) ∧
    (∀ line pre : List Char, splitHead sepDelim line = some pre →
      strptimeNaive pre = none → get_last_log_time (some line) = none) := by
  refine ⟨rfl, rfl, ?_, ?_⟩
  · intro line h
    cases line with
    | nil => rfl
    | cons c cs => simp [get_last_log_time, h]
  · intro line pre h1 h2
    cases line with
    | nil => simp [splitHead] at h1
    | cons c cs => simp [get_last_log_time, h1, h2]

/-- Witness for C9: a line with the delimiter but an unparseable timestamp
prefix yields absent. -/
theorem activityProbeFailureWitness :
    get_last_log_time (some ['h', 'e', 'y', ' ', '-', ' ', 'x']) = none :=
  activityProbeFailurePaths.2.2.2 ['h', 'e', 'y', ' ', '-', ' ', 'x'] ['h', 'e', 'y'] rfl rfl

/-- C10: on every call the kill (pkill) effect happens before any
launch-target lookup (the run.sh existence check or any glob): no lookup
precedes the kill in the trace; and whenever restart fails because no launch
target exists (chdir succeeded, no run.sh, every pattern empty), the outcome is
the no-launch-target failure and the kill has already happened. -/
theorem killPrecedesLaunchLookup (env : REnv) :
    killBeforeLookups (restart_bot env).1 = true ∧
    (env.chdirOk = true → env.runScriptExists = false →
      (findScript env.glob patterns).2 = none →
      (restart_bot env).2 = (false, "No bot script found") ∧
      Effect.kill ∈ (restart_bot env).1) := by
  constructor
  · by_cases h : env.chdirOk
    · simp [restart_bot, h, killBeforeLookups]
    · simp [restart_bot, h, killBeforeLookups]
  · intro h1 h2 h3
    constructor
    · simp [restart_bot, launchAttempt, h1, h2, h3]
    · have htr : (restart_bot env).1 =
        Effect.chdirE :: Effect.kill :: (launchAttempt env).1 := by
        simp [restart_bot, h1]
      rw [htr]
      exact List.mem_cons_of_mem _ (List.mem_cons_self _ _)

/-- Witness for C10: the concrete environment with no run.sh and empty globs. -/
theorem killPrecedesLaunchLookupWitness :
    killBeforeLookups (restart_bot (REnv.mk true false (fun _ => []) false "x" "y")).1 = true ∧
    (restart_bot (REnv.mk true false (fun _ => []) false "x" "y")).2 =
      (false, "No bot script found") ∧
    Effect.kill ∈ (restart_bot (REnv.mk true false (fun _ => []) false "x" "y")).1 :=
  ⟨(killPrecedesLaunchLookup (REnv.mk true false (fun _ => []) false "x" "y")).1,
   ((killPrecedesLaunchLookup (REnv.mk true false (fun _ => []) false "x" "y")).2 rfl rfl rfl).1,
   ((killPrecedesLaunchLookup (REnv.mk true false (fun _ => []) false "x" "y")).2 rfl rfl rfl).2⟩
